import Mathlib

/-!
Verification of the notification-reconciliation and token-lifecycle core of
the outlook-mcp-oauth worker.  The definitions below are a shallow embedding
of the TypeScript source:

  * src/api/lib/kv-helpers.ts      (getEventCache / putEventCache)
  * src/api/index.ts               (the /webhooks/email-notify and
                                    /webhooks/calendar-notify handlers and
                                    the router-level onError handler)
  * src/api/MicrosoftService.ts    (makeRequest, refreshAccessToken,
                                    getUserCalendarEvents)

JavaScript-specific behaviour that the handlers rely on (truthiness of
strings, nullish coalescing, the logical-or fallback to null) is embedded
explicitly through small helper functions.
-/

namespace OutlookMCP

/-- Truthiness of a JavaScript value of type string or undefined or null:
undefined and null and the empty string are falsy. -/
def jsTruthy : Option String → Bool
  | some s => s != ""
  | none => false

/-- The JavaScript expression e or null applied to a string-or-absent value,
as in data["@odata.nextLink"] || null: the empty string collapses to null. -/
def jsOrNull : Option String → Option String
  | some s => if s = "" then none else some s
  | none => none

/-- Nullish coalescing name ?? "unknown" used for the account name when the
x-mcp-name header is absent. -/
def jsName (name : Option String) : String := name.getD "unknown"

/-! ## Keyed expiring cache (src/api/lib/kv-helpers.ts) -/

/-- One record stored in the MICROSOFT_EVENT_CACHE KV namespace: the key, the
stored payload string, and the expirationTtl option passed to put (none means
the entry was stored with no expiration). -/
structure KvEntry where
  key : String
  payload : String
  expirationTtl : Option Nat
deriving DecidableEq, Repr

/-- State of the KV namespace.  Newer puts are consed at the front and shadow
older entries with the same key. -/
abbrev Cache := List KvEntry

/-- Lookup of the full entry stored under a key. -/
def cacheFind (c : Cache) (k : String) : Option KvEntry :=
  c.find? (fun e => e.key = k)

/-- Value read back by MICROSOFT_EVENT_CACHE.get. -/
def cacheGet (c : Cache) (k : String) : Option String :=
  (cacheFind c k).map (fun e => e.payload)

/-- Cache key built by both kv helpers: serverName:eventType:eventId. -/
def eventCacheKey (serverName eventType eventId : String) : String :=
  serverName ++ ":" ++ eventType ++ ":" ++ eventId

/-- The optional expirationTtl argument of putEventCache.  In the source it
is a TypeScript value of type number, null, or undefined (omitted). -/
inductive TtlArg where
  | undef : TtlArg
  | null : TtlArg
  | ttl (seconds : Nat) : TtlArg
deriving DecidableEq, Repr

/-- Resolution of the expirationTtl option handed to the KV put in
putEventCache: undefined defaults to 60 seconds, null means no expiration,
and a number is used as given. -/
def resolveExpirationTtl : TtlArg → Option Nat
  | TtlArg.undef => some 60
  | TtlArg.null => none
  | TtlArg.ttl n => some n

/-- getEventCache from src/api/lib/kv-helpers.ts. -/
def getEventCache (c : Cache) (serverName eventType eventId : String) : Option String :=
  cacheGet c (eventCacheKey serverName eventType eventId)

/-- putEventCache from src/api/lib/kv-helpers.ts. -/
def putEventCache (c : Cache) (serverName eventType eventId eventData : String)
    (expirationTtl : TtlArg) : Cache :=
  { key := eventCacheKey serverName eventType eventId
    payload := eventData
    expirationTtl := resolveExpirationTtl expirationTtl } :: c

/-! ## Webhook notification handlers (src/api/index.ts) -/

/-- DEBOUNCE_TTL constant from src/api/index.ts: two minutes. -/
def DEBOUNCE_TTL : Nat := 2 * 60

/-- The fields of one element of body.value that the notification handlers
read: clientState, resourceData.id, changeType and subscriptionId.  Absent
fields are none. -/
structure BodyValue where
  clientState : Option String
  resourceDataId : Option String
  changeType : String
  subscriptionId : Option String
deriving DecidableEq, Repr

/-- Stand-in for JSON.stringify(bodyValue), the payload stored in the cache
when a calendar event is accepted. -/
def stringifyBodyValue (bv : BodyValue) : String :=
  "\x7b" ++ (jsName bv.clientState) ++ "|" ++ (jsName bv.resourceDataId) ++ "|" ++
    bv.changeType ++ "|" ++ (jsName bv.subscriptionId) ++ "\x7d"

/-- One accepted calendar event as pushed onto the events array. -/
structure CalendarEventNotification where
  eventId : String
  eventType : String
deriving DecidableEq, Repr

/-- Loop state of the calendar-notify handler: the KV cache plus the events
array and the subscriptionId accumulator. -/
structure CalendarAccState where
  cache : Cache
  events : List CalendarEventNotification
  subscriptionId : Option String
deriving DecidableEq, Repr

/-- Acceptance path of the calendar-notify loop body: push the event, store a
cache entry under accountName:changeType:eventId with the debounce TTL, and
set subscriptionId if it is still falsy. -/
def acceptCalendarEvent (name : Option String) (st : CalendarAccState)
    (bv : BodyValue) (eventId : String) : CalendarAccState :=
  { cache := putEventCache st.cache (jsName name) bv.changeType eventId
      (stringifyBodyValue bv) (TtlArg.ttl DEBOUNCE_TTL)
    events := st.events ++ [{ eventId := eventId, eventType := bv.changeType }]
    subscriptionId :=
      if jsTruthy st.subscriptionId then st.subscriptionId else bv.subscriptionId }

/-- One iteration of the for-loop of POST /webhooks/calendar-notify
(src/api/index.ts lines 461-570): clientState check, resource id check,
self-duplicate cache check, cross-type suppression checks, then acceptance. -/
def processCalendarItem (secret : String) (name : Option String)
    (st : CalendarAccState) (bv : BodyValue) : CalendarAccState :=
  if bv.clientState ≠ some secret then st else
  match bv.resourceDataId with
  | none => st
  | some eventId =>
    if eventId = "" then st else
    let nm := jsName name
    let eventType := bv.changeType
    if (getEventCache st.cache nm eventType eventId).isSome then st
    else if eventType = "updated" then
      if (getEventCache st.cache nm "created" eventId).isSome then st
      else if (getEventCache st.cache nm "deleted" eventId).isSome then st
      else acceptCalendarEvent name st bv eventId
    else if eventType = "created" then
      if (getEventCache st.cache nm "updated" eventId).isSome then st
      else acceptCalendarEvent name st bv eventId
    else if eventType = "deleted" then
      if (getEventCache st.cache nm "updated" eventId).isSome then st
      else acceptCalendarEvent name st bv eventId
    else acceptCalendarEvent name st bv eventId

/-- The whole for-loop of the calendar-notify handler over body.value. -/
def processCalendarItems (secret : String) (name : Option String)
    (st : CalendarAccState) (body : List BodyValue) : CalendarAccState :=
  body.foldl (processCalendarItem secret name) st

/-- The WebhookResponse payload returned by the notification endpoints via
c.json: a status code, content string and content type for the gateway, plus
optional process data. -/
structure WebhookResponse (α : Type) where
  reqResponseCode : Nat
  reqResponseContent : String
  reqResponseContentType : String
  processData : Option α
deriving DecidableEq, Repr

/-- Body string JSON.stringify with ok true. -/
def okBody : String := "\x7b\"ok\":true\x7d"

/-- CalendarProcessData forwarded to the agent layer. -/
structure CalendarProcessData where
  name : String
  subscriptionId : String
  events : List CalendarEventNotification
deriving DecidableEq, Repr

/-- EmailProcessData forwarded to the agent layer. -/
structure EmailProcessData where
  name : String
  subscriptionId : String
  emailIds : List String
deriving DecidableEq, Repr

/-- POST /webhooks/calendar-notify (src/api/index.ts lines 440-599).  Inputs:
the configured webhook secret, the validationToken query parameter, the
x-mcp-name header, the parsed body.value array and the current cache state.
Returns the WebhookResponse and the cache state after the request. -/
def calendarNotify (secret : String) (validationToken : Option String)
    (name : Option String) (body : List BodyValue) (cache : Cache) :
    WebhookResponse CalendarProcessData × Cache :=
  if jsTruthy validationToken then
    ({ reqResponseCode := 200
       reqResponseContent := validationToken.getD ""
       reqResponseContentType := "text"
       processData := none }, cache)
  else
    let st := processCalendarItems secret name { cache := cache, events := [], subscriptionId := none } body
    if !(jsTruthy st.subscriptionId) || !(jsTruthy name) || st.events.isEmpty then
      ({ reqResponseCode := 202, reqResponseContent := okBody
         reqResponseContentType := "json", processData := none }, st.cache)
    else
      ({ reqResponseCode := 202, reqResponseContent := okBody
         reqResponseContentType := "json"
         processData := some { name := jsName name
                               subscriptionId := st.subscriptionId.getD ""
                               events := st.events } }, st.cache)

/-- Loop state of the email-notify handler: the emailIds array and the
subscriptionId accumulator.  The loop performs no cache access. -/
structure EmailAccState where
  emailIds : List String
  subscriptionId : Option String
deriving DecidableEq, Repr

/-- One iteration of the for-loop of POST /webhooks/email-notify
(src/api/index.ts lines 288-301): clientState check, resource id check, then
push the id and set subscriptionId if it is still falsy. -/
def processEmailItem (secret : String) (st : EmailAccState) (bv : BodyValue) :
    EmailAccState :=
  if bv.clientState ≠ some secret then st else
  match bv.resourceDataId with
  | none => st
  | some resourceId =>
    if resourceId = "" then st else
    { emailIds := st.emailIds ++ [resourceId]
      subscriptionId :=
        if jsTruthy st.subscriptionId then st.subscriptionId else bv.subscriptionId }

/-- The whole for-loop of the email-notify handler over body.value. -/
def processEmailItems (secret : String) (st : EmailAccState)
    (body : List BodyValue) : EmailAccState :=
  body.foldl (processEmailItem secret) st

/-- POST /webhooks/email-notify (src/api/index.ts lines 267-330).  The cache
is threaded through untouched: the source performs no KV operation on this
path. -/
def emailNotify (secret : String) (validationToken : Option String)
    (name : Option String) (body : List BodyValue) (cache : Cache) :
    WebhookResponse EmailProcessData × Cache :=
  if jsTruthy validationToken then
    ({ reqResponseCode := 200
       reqResponseContent := validationToken.getD ""
       reqResponseContentType := "text"
       processData := none }, cache)
  else
    let st := processEmailItems secret { emailIds := [], subscriptionId := none } body
    if !(jsTruthy st.subscriptionId) || !(jsTruthy name) || st.emailIds.isEmpty then
      ({ reqResponseCode := 202, reqResponseContent := okBody
         reqResponseContentType := "json", processData := none }, cache)
    else
      ({ reqResponseCode := 202, reqResponseContent := okBody
         reqResponseContentType := "json"
         processData := some { name := jsName name
                               subscriptionId := st.subscriptionId.getD ""
                               emailIds := st.emailIds } }, cache)

/-! ## Fallible cache model for the calendar-notify route (src/api/index.ts)

The KV binding can reject its promises when the store is unavailable.  The
handler has no try/catch around getEventCache / putEventCache, so a rejection
propagates to the router, whose onError handler (src/api/index.ts lines
41-68) answers 500 with a server_error body for any error without a 401
status field.  The store behaviour is modelled by per-key failure oracles. -/

/-- A KV namespace whose get and put operations may fail: the entries
currently stored, plus oracles saying which keys currently fail to read or
write (store unavailability). -/
structure KvBehavior where
  entries : Cache
  getFails : String → Bool
  putFails : String → Bool

/-- MICROSOFT_EVENT_CACHE.get with possible rejection. -/
def kvGet (kv : KvBehavior) (k : String) : Except Unit (Option String) :=
  if kv.getFails k then Except.error () else Except.ok (cacheGet kv.entries k)

/-- MICROSOFT_EVENT_CACHE.put with possible rejection. -/
def kvPut (kv : KvBehavior) (k payload : String) (expirationTtl : TtlArg) :
    Except Unit KvBehavior :=
  if kv.putFails k then Except.error ()
  else Except.ok { kv with
    entries := { key := k, payload := payload
                 expirationTtl := resolveExpirationTtl expirationTtl } :: kv.entries }

/-- getEventCache against the fallible store. -/
def getEventCacheE (kv : KvBehavior) (serverName eventType eventId : String) :
    Except Unit (Option String) :=
  kvGet kv (eventCacheKey serverName eventType eventId)

/-- putEventCache against the fallible store. -/
def putEventCacheE (kv : KvBehavior) (serverName eventType eventId eventData : String)
    (expirationTtl : TtlArg) : Except Unit KvBehavior :=
  kvPut kv (eventCacheKey serverName eventType eventId) eventData expirationTtl

/-- Loop state of the calendar-notify handler over the fallible store. -/
structure CalendarAccStateE where
  kv : KvBehavior
  events : List CalendarEventNotification
  subscriptionId : Option String

/-- One iteration of the calendar-notify loop against the fallible store:
identical control flow to processCalendarItem, with every awaited cache
operation able to fail, in which case the whole handler fails (there is no
try/catch in the source handler). -/
def processCalendarItemE (secret : String) (name : Option String)
    (st : CalendarAccStateE) (bv : BodyValue) : Except Unit CalendarAccStateE :=
  if bv.clientState ≠ some secret then Except.ok st else
  match bv.resourceDataId with
  | none => Except.ok st
  | some eventId =>
    if eventId = "" then Except.ok st else
    let nm := jsName name
    let eventType := bv.changeType
    do
      let eventData ← getEventCacheE st.kv nm eventType eventId
      if eventData.isSome then return st
      if eventType = "updated" then
        let createdEventData ← getEventCacheE st.kv nm "created" eventId
        if createdEventData.isSome then return st
        let deletedEventData ← getEventCacheE st.kv nm "deleted" eventId
        if deletedEventData.isSome then return st
      else if eventType = "created" then
        let updatedEventData ← getEventCacheE st.kv nm "updated" eventId
        if updatedEventData.isSome then return st
      else if eventType = "deleted" then
        let updatedEventData ← getEventCacheE st.kv nm "updated" eventId
        if updatedEventData.isSome then return st
      let kv2 ← putEventCacheE st.kv nm eventType eventId (stringifyBodyValue bv)
        (TtlArg.ttl DEBOUNCE_TTL)
      return { kv := kv2
               events := st.events ++ [{ eventId := eventId, eventType := eventType }]
               subscriptionId :=
                 if jsTruthy st.subscriptionId then st.subscriptionId
                 else bv.subscriptionId }

/-- POST /webhooks/calendar-notify against the fallible store. -/
def calendarNotifyE (secret : String) (validationToken : Option String)
    (name : Option String) (body : List BodyValue) (kv : KvBehavior) :
    Except Unit (WebhookResponse CalendarProcessData × KvBehavior) :=
  if jsTruthy validationToken then
    Except.ok ({ reqResponseCode := 200
                 reqResponseContent := validationToken.getD ""
                 reqResponseContentType := "text"
                 processData := none }, kv)
  else do
    let st ← body.foldlM (processCalendarItemE secret name)
      { kv := kv, events := [], subscriptionId := none }
    if !(jsTruthy st.subscriptionId) || !(jsTruthy name) || st.events.isEmpty then
      return ({ reqResponseCode := 202, reqResponseContent := okBody
                reqResponseContentType := "json", processData := none }, st.kv)
    else
      return ({ reqResponseCode := 202, reqResponseContent := okBody
                reqResponseContentType := "json"
                processData := some { name := jsName name
                                      subscriptionId := st.subscriptionId.getD ""
                                      events := st.events } }, st.kv)

/-- HTTP reply produced by the Hono app for one request: either c.json of the
WebhookResponse (status 200), or the reply built by the router-level onError
handler. -/
inductive RouteReply (α : Type) where
  | json (status : Nat) (body : WebhookResponse α) : RouteReply α
  | errorJson (status : Nat) (body : String) : RouteReply α
deriving DecidableEq, Repr

/-- Body string produced by onError for an error without a 401 status. -/
def serverErrorBody : String := "\x7b\"error\":\"server_error\"\x7d"

/-- The calendar-notify route as served by the Hono app: an error escaping
the handler (for example a rejected KV promise, which carries no status
field) reaches onError and is answered 500 server_error. -/
def serveCalendarNotify (secret : String) (validationToken : Option String)
    (name : Option String) (body : List BodyValue) (kv : KvBehavior) :
    RouteReply CalendarProcessData :=
  match calendarNotifyE secret validationToken name body kv with
  | Except.ok (resp, _) => RouteReply.json 200 resp
  | Except.error _ => RouteReply.errorJson 500 serverErrorBody

/-! ## Token lifecycle and request executor (src/api/MicrosoftService.ts) -/

/-- The token-bearing fields of a MicrosoftService instance. -/
structure TokenState where
  accessToken : String
  refreshToken : String
  userId : String
deriving DecidableEq, Repr

/-- The parts of a Graph JSON response body that the service reads: the value
array of items (opaque strings here) and the continuation link. -/
structure GraphPage where
  value : Option (List String)
  nextLink : Option String
deriving DecidableEq, Repr

/-- An HTTP response from fetch: status, statusText, and the parsed JSON
body as far as the service reads it. -/
structure HttpResp where
  status : Nat
  statusText : String
  page : GraphPage
deriving DecidableEq, Repr

/-- Outcome of the token-endpoint exchange performed by refreshAccessToken:
a successful response carries access_token and an optional refresh_token;
otherwise the response was not ok and carries the error text. -/
inductive RefreshOutcome where
  | ok (accessToken : String) (refreshToken : Option String) : RefreshOutcome
  | httpError (errorText : String) : RefreshOutcome
deriving DecidableEq, Repr

/-- Deterministic model of the network: the response of fetch for a given
url and bearer token, and the outcome of the token-endpoint exchange. -/
structure World where
  fetch : String → String → HttpResp
  refresh : RefreshOutcome

/-- Response.ok of the fetch API: status in the range 200 to 299. -/
def jsResponseOk (status : Nat) : Bool := 200 ≤ status && status ≤ 299

/-- refreshAccessToken (src/api/MicrosoftService.ts lines 68-99): on a
non-ok token response it throws; on success it overwrites accessToken and
overwrites refreshToken only when the response carried a truthy
refresh_token.  No other field of the service is touched. -/
def refreshAccessToken (w : World) (st : TokenState) : Except String TokenState :=
  match w.refresh with
  | RefreshOutcome.httpError t =>
    Except.error ("Failed to refresh access token: " ++ t)
  | RefreshOutcome.ok accessToken refreshToken =>
    Except.ok { accessToken := accessToken
                refreshToken :=
                  match jsOrNull refreshToken with
                  | some r => r
                  | none => st.refreshToken
                userId := st.userId }

/-- Result of makeRequest: the returned JSON (or the thrown error text), the
token state afterwards, and how many API fetches and token-endpoint calls
were issued. -/
structure MakeRequestResult where
  result : Except String GraphPage
  state : TokenState
  apiCalls : Nat
  refreshCalls : Nat
deriving Repr

/-- makeRequest (src/api/MicrosoftService.ts lines 18-58): issue the request
with the current bearer token; on 401 refresh once and replay once, returning
the replayed response body as parsed JSON whatever its status; on any other
non-ok status throw a Microsoft API error; otherwise return the body. -/
def makeRequest (w : World) (st : TokenState) (url : String) : MakeRequestResult :=
  let r1 := w.fetch url st.accessToken
  if r1.status = 401 then
    match refreshAccessToken w st with
    | Except.error e =>
      { result := Except.error e, state := st, apiCalls := 1, refreshCalls := 1 }
    | Except.ok st2 =>
      let r2 := w.fetch url st2.accessToken
      { result := Except.ok r2.page, state := st2, apiCalls := 2, refreshCalls := 1 }
  else if !(jsResponseOk r1.status) then
    { result := Except.error
        ("Microsoft API error: " ++ toString r1.status ++ " " ++ r1.statusText)
      state := st, apiCalls := 1, refreshCalls := 0 }
  else
    { result := Except.ok r1.page, state := st, apiCalls := 1, refreshCalls := 0 }

/-- Result of the pagination loop: the accumulated events (or the propagated
error), the token state afterwards, and the total number of API fetches. -/
structure PaginationResult where
  result : Except String (List String)
  state : TokenState
  apiCalls : Nat
deriving Repr

/-- The while loop of getUserCalendarEvents (src/api/MicrosoftService.ts
lines 121-133): fetch each page through makeRequest, append its value items
when present, and continue with nextLink or null.  The fuel bound only rules
out the (never-reached under the theorems below) infinite chain. -/
def eventsLoop (w : World) :
    Nat → TokenState → Option String → List String → Nat → PaginationResult
  | _, st, none, acc, calls =>
    { result := Except.ok acc, state := st, apiCalls := calls }
  | 0, st, some _, _, calls =>
    { result := Except.error "pagination did not terminate", state := st, apiCalls := calls }
  | fuel + 1, st, some url, acc, calls =>
    let mr := makeRequest w st url
    match mr.result with
    | Except.error e =>
      { result := Except.error e, state := mr.state, apiCalls := calls + mr.apiCalls }
    | Except.ok page =>
      let acc2 := match page.value with
        | some items => acc ++ items
        | none => acc
      eventsLoop w fuel mr.state (jsOrNull page.nextLink) acc2 (calls + mr.apiCalls)

/-- getUserCalendarEvents (src/api/MicrosoftService.ts lines 107-135),
starting from the initial url the method builds from its date filters (the
query-string construction itself is not modelled). -/
def getUserCalendarEvents (w : World) (st : TokenState) (fuel : Nat)
    (initialUrl : String) : PaginationResult :=
  eventsLoop w fuel st (some initialUrl) [] 0

/-- Items contributed by one page to the events array. -/
def pageItems (p : GraphPage) : List String := p.value.getD []

/-- A chain of linked pages served by the world for a fixed bearer token:
each url answers with status 200 and the given page, every page but the last
links to the next url, and the last page has an absent (or empty, hence
falsy) continuation link. -/
def PageChain (w : World) (tok : String) : String → List GraphPage → Prop
  | _, [] => False
  | u, p :: rest =>
    (w.fetch u tok).status = 200 ∧ (w.fetch u tok).page = p ∧
    match rest with
    | [] => jsOrNull p.nextLink = none
    | _ :: _ => ∃ u2, jsOrNull p.nextLink = some u2 ∧ PageChain w tok u2 rest

/-! ## Spec-side description of the cross-type suppression table -/

/-- The suppression table of section 4.2 of the specification, read off the
spec text: an incoming updated is suppressed by a cached created or deleted
for the same id, an incoming created or deleted is suppressed by a cached
updated for the same id, and nothing else is suppressed. -/
def crossSuppressed (cache : Cache) (nm changeType eventId : String) : Bool :=
  if changeType = "updated" then
    (getEventCache cache nm "created" eventId).isSome ||
      (getEventCache cache nm "deleted" eventId).isSome
  else if changeType = "created" then
    (getEventCache cache nm "updated" eventId).isSome
  else if changeType = "deleted" then
    (getEventCache cache nm "updated" eventId).isSome
  else false

/-! ## Concrete instances used by witnesses and counterexamples -/

/-- A world in which every API fetch answers 401 and the token exchange
succeeds without rotating the refresh token. -/
def w401 : World :=
  { fetch := fun _ _ =>
      { status := 401, statusText := "Unauthorized"
        page := { value := none, nextLink := none } }
    refresh := RefreshOutcome.ok "tok2" none }

/-- Token state used with w401. -/
def st401 : TokenState :=
  { accessToken := "tok1", refreshToken := "r1", userId := "u1" }

/-- First page of a three-page chain. -/
def page1 : GraphPage := { value := some ["i1"], nextLink := some "u2" }

/-- Second page of a three-page chain. -/
def page2 : GraphPage := { value := some ["i2"], nextLink := some "u3" }

/-- Last page of a three-page chain. -/
def page3 : GraphPage := { value := some ["i3"], nextLink := none }

/-- A world serving the three-page chain u1, u2, u3 with status 200. -/
def wPages : World :=
  { fetch := fun u _ =>
      if u = "u1" then { status := 200, statusText := "OK", page := page1 }
      else if u = "u2" then { status := 200, statusText := "OK", page := page2 }
      else { status := 200, statusText := "OK", page := page3 }
    refresh := RefreshOutcome.httpError "unavailable" }

/-- Token state used with wPages. -/
def stPag : TokenState :=
  { accessToken := "tokP", refreshToken := "rP", userId := "uP" }

/-- A world whose token exchange succeeds and rotates the refresh token. -/
def wRotate : World :=
  { fetch := fun _ _ =>
      { status := 200, statusText := "OK"
        page := { value := none, nextLink := none } }
    refresh := RefreshOutcome.ok "a2" (some "r2") }

/-- An empty KV namespace whose reads all fail (store unavailable). -/
def kvAllReadsFail : KvBehavior :=
  { entries := [], getFails := fun _ => true, putFails := fun _ => false }

/-- A valid created notification item for event E1. -/
def bvCreatedE1 : BodyValue :=
  { clientState := some "secret", resourceDataId := some "E1"
    changeType := "created", subscriptionId := some "sub1" }

/-- A valid updated notification item for event E1. -/
def bvUpdatedE1 : BodyValue :=
  { clientState := some "secret", resourceDataId := some "E1"
    changeType := "updated", subscriptionId := some "sub1" }

/-- Loop state with an empty cache. -/
def stEmptyCal : CalendarAccState :=
  { cache := [], events := [], subscriptionId := none }

/-- Loop state whose cache holds a created entry for E1 under account acct. -/
def stCreatedCachedE1 : CalendarAccState :=
  { cache := [{ key := "acct:created:E1", payload := "p", expirationTtl := some 120 }]
    events := [], subscriptionId := none }

/-- A world whose token exchange succeeds without issuing a refresh token. -/
def wNoRotate : World :=
  { fetch := fun _ _ =>
      { status := 200, statusText := "OK"
        page := { value := none, nextLink := none } }
    refresh := RefreshOutcome.ok "a3" none }

end OutlookMCP

namespace OutlookMCP

/-! ## Theorems -/

/-- Claim C5 (corrected part): for every request to the email-notify or the
calendar-notify endpoint carrying a non-empty validationToken query
parameter, the handler answers with reqResponseCode 200, content type text
and body equal to the token verbatim, independently of the secret, the
header, the request body and the cache, and the cache is untouched. -/
theorem C5_handshake_precedence :
    ∀ (secret t : String) (name : Option String) (body : List BodyValue) (cache : Cache),
      t ≠ "" →
      calendarNotify secret (some t) name body cache =
        ({ reqResponseCode := 200, reqResponseContent := t
           reqResponseContentType := "text", processData := none }, cache) ∧
      emailNotify secret (some t) name body cache =
        ({ reqResponseCode := 200, reqResponseContent := t
           reqResponseContentType := "text", processData := none }, cache) := by
  intro secret t name body cache ht
  have htr : jsTruthy (some t) = true := by
    simp [jsTruthy, ht]
  constructor
  · simp [calendarNotify, htr]
  · simp [emailNotify, htr]

/-- Witness for C5 at the concrete handshake token abc123. -/
theorem C5_handshake_precedence_witness :
    calendarNotify "s" (some "abc123") (some "acct") [] [] =
      ({ reqResponseCode := 200, reqResponseContent := "abc123"
         reqResponseContentType := "text", processData := none }, []) :=
  (C5_handshake_precedence "s" "abc123" (some "acct") [] [] (by decide)).1

/-- Counterexample to claim C5 as stated: a request carrying the
validationToken query parameter with the empty value is not answered with
the 200 text echo; the empty token is falsy in JavaScript, so the handler
falls through to batch processing and answers 202 json. -/
theorem C5_empty_token_counterexample :
    (calendarNotify "s" (some "") (some "acct") [] []).1.reqResponseCode = 202 ∧
    (calendarNotify "s" (some "") (some "acct") [] []).1.reqResponseCode ≠ 200 ∧
    (calendarNotify "s" (some "") (some "acct") [] []).1.reqResponseContentType ≠ "text" := by
  refine ⟨rfl, by decide, by decide⟩

/-- Claim C6: an item whose clientState differs from the configured secret is
skipped silently on both notification paths, leaving the loop state exactly
as it was so that later items of the batch are processed unaffected; and for
every batch (with no handshake token), both endpoints answer 202 with the
JSON body ok true, even when zero events are accepted. -/
theorem C6_client_state_drop_and_unconditional_ack :
    ∀ (secret : String) (name : Option String) (body : List BodyValue) (cache : Cache)
      (st : CalendarAccState) (est : EmailAccState) (bv : BodyValue) (rest : List BodyValue),
      (bv.clientState ≠ some secret →
        processCalendarItems secret name st (bv :: rest) =
          processCalendarItems secret name st rest ∧
        processEmailItems secret est (bv :: rest) = processEmailItems secret est rest) ∧
      (calendarNotify secret none name body cache).1.reqResponseCode = 202 ∧
      (calendarNotify secret none name body cache).1.reqResponseContent = okBody ∧
      (calendarNotify secret none name body cache).1.reqResponseContentType = "json" ∧
      (emailNotify secret none name body cache).1.reqResponseCode = 202 ∧
      (emailNotify secret none name body cache).1.reqResponseContent = okBody ∧
      (emailNotify secret none name body cache).1.reqResponseContentType = "json" := by
  intro secret name body cache st est bv rest
  refine ⟨?_, ?_, ?_, ?_, ?_, ?_, ?_⟩
  · intro h
    constructor
    · unfold processCalendarItems
      rw [List.foldl_cons]
      congr 1
      simp [processCalendarItem, h]
    · unfold processEmailItems
      rw [List.foldl_cons]
      congr 1
      simp [processEmailItem, h]
  all_goals
    simp only [calendarNotify, emailNotify, jsTruthy, Bool.false_eq_true, if_false]
  all_goals split <;> rfl

/-- Witness for C6 at a concrete mismatching item. -/
theorem C6_client_state_drop_witness :
    processCalendarItems "s" (some "acct")
        { cache := [], events := [], subscriptionId := none }
        [{ clientState := some "wrong", resourceDataId := some "E9"
           changeType := "created", subscriptionId := some "sub9" }] =
      processCalendarItems "s" (some "acct")
        { cache := [], events := [], subscriptionId := none } [] :=
  ((C6_client_state_drop_and_unconditional_ack "s" (some "acct") [] []
      { cache := [], events := [], subscriptionId := none }
      { emailIds := [], subscriptionId := none }
      { clientState := some "wrong", resourceDataId := some "E9"
        changeType := "created", subscriptionId := some "sub9" } []).1 (by decide)).1

/-- Counterexample to claim C7 as stated: a cache entry written without an
explicit TTL does not get the 120-second debounce window; the kv helper
defaults the expiration to 60 seconds. -/
theorem C7_default_ttl_counterexample :
    resolveExpirationTtl TtlArg.undef ≠ some DEBOUNCE_TTL ∧
    resolveExpirationTtl TtlArg.undef = some 60 := by
  refine ⟨by decide, rfl⟩

/-- Claim C7 (corrected): an entry written with the TTL argument omitted
defaults to a 60-second expiration; the explicit null override is a distinct
value storing the entry without expiration; and an accepted calendar event is
stored under accountName:changeType:eventId with the explicit 120-second
debounce TTL. -/
theorem C7_cache_ttl_semantics :
    resolveExpirationTtl TtlArg.undef = some 60 ∧
    resolveExpirationTtl TtlArg.null = none ∧
    (∀ n : Nat, resolveExpirationTtl (TtlArg.ttl n) = some n) ∧
    DEBOUNCE_TTL = 120 ∧
    (∀ (name : Option String) (st : CalendarAccState) (bv : BodyValue) (eventId : String),
      cacheFind (acceptCalendarEvent name st bv eventId).cache
          (eventCacheKey (jsName name) bv.changeType eventId) =
        some { key := eventCacheKey (jsName name) bv.changeType eventId
               payload := stringifyBodyValue bv
               expirationTtl := some DEBOUNCE_TTL }) := by
  refine ⟨rfl, rfl, fun n => rfl, rfl, ?_⟩
  intro name st bv eventId
  simp [acceptCalendarEvent, putEventCache, cacheFind, List.find?, resolveExpirationTtl]

/-- Claim C9: a successful token exchange replaces the stored access token
with the newly issued one; the stored refresh token is replaced exactly when
a (truthy) refresh_token was issued, and otherwise kept; no other field of
the token state changes. -/
theorem C9_refresh_rotation_frame :
    ∀ (w : World) (st : TokenState) (a : String),
      (∀ r : String, w.refresh = RefreshOutcome.ok a (some r) → r ≠ "" →
        refreshAccessToken w st =
          Except.ok { accessToken := a, refreshToken := r, userId := st.userId }) ∧
      (w.refresh = RefreshOutcome.ok a none →
        refreshAccessToken w st =
          Except.ok { accessToken := a, refreshToken := st.refreshToken
                      userId := st.userId }) := by
  intro w st a
  constructor
  · intro r h hr
    simp [refreshAccessToken, h, jsOrNull, hr]
  · intro h
    simp [refreshAccessToken, h, jsOrNull]

/-- Witness for C9: a concrete rotating exchange and a concrete exchange
without rotation. -/
theorem C9_refresh_rotation_frame_witness :
    refreshAccessToken wRotate st401 =
      Except.ok { accessToken := "a2", refreshToken := "r2", userId := "u1" } ∧
    refreshAccessToken wNoRotate st401 =
      Except.ok { accessToken := "a3", refreshToken := "r1", userId := "u1" } :=
  ⟨(C9_refresh_rotation_frame wRotate st401 "a2").1 "r2" rfl (by decide),
   (C9_refresh_rotation_frame wNoRotate st401 "a3").2 rfl⟩

/-- Claim C10: the email-notify path performs no cache write (the cache
comes back unchanged), its response does not depend on the cache at all, and
every surviving item with a resource id appends that id to emailIds, so the
identical notification delivered twice is forwarded twice. -/
theorem C10_email_path_no_dedup :
    ∀ (secret : String) (vt : Option String) (name : Option String)
      (body : List BodyValue) (c1 c2 : Cache) (est : EmailAccState)
      (bv : BodyValue) (rid : String),
      (emailNotify secret vt name body c1).2 = c1 ∧
      (emailNotify secret vt name body c1).1 = (emailNotify secret vt name body c2).1 ∧
      (bv.clientState = some secret → bv.resourceDataId = some rid → rid ≠ "" →
        (processEmailItem secret est bv).emailIds = est.emailIds ++ [rid] ∧
        (processEmailItems secret est [bv, bv]).emailIds = est.emailIds ++ [rid, rid]) := by
  intro secret vt name body c1 c2 est bv rid
  refine ⟨?_, ?_, ?_⟩
  · unfold emailNotify
    split
    · rfl
    · dsimp only []
      split <;> rfl
  · unfold emailNotify
    split
    · rfl
    · dsimp only []
      split <;> rfl
  · intro h1 h2 h3
    have hstep : ∀ e : EmailAccState, (processEmailItem secret e bv).emailIds = e.emailIds ++ [rid] := by
      intro e
      simp [processEmailItem, h1, h2, h3]
    constructor
    · exact hstep est
    · unfold processEmailItems
      rw [List.foldl_cons, List.foldl_cons, List.foldl_nil]
      rw [hstep, hstep]
      simp

/-- Helper: when the cache already holds an entry for the same change type of
the same event, the calendar-notify loop body leaves its state unchanged. -/
theorem processCalendarItem_self_cached :
    ∀ (secret : String) (name : Option String) (st : CalendarAccState)
      (bv : BodyValue) (eventId : String),
      bv.resourceDataId = some eventId →
      (getEventCache st.cache (jsName name) bv.changeType eventId).isSome = true →
      processCalendarItem secret name st bv = st := by
  intro secret name st bv eventId h2 h4
  simp only [processCalendarItem, h2]
  split_ifs <;> simp_all

/-- Helper: the acceptance path stores a cache entry readable back under the
accepted key. -/
theorem getEventCache_accept_self :
    ∀ (name : Option String) (st : CalendarAccState) (bv : BodyValue) (eventId : String),
      getEventCache (acceptCalendarEvent name st bv eventId).cache
          (jsName name) bv.changeType eventId = some (stringifyBodyValue bv) := by
  intro name st bv eventId
  simp [acceptCalendarEvent, putEventCache, getEventCache, cacheGet, cacheFind, List.find?]

/-- Helper: the calendar-notify loop body either leaves its state unchanged,
or accepts the item and for that reads the id out of resourceData. -/
theorem processCalendarItem_cases :
    ∀ (secret : String) (name : Option String) (st : CalendarAccState) (bv : BodyValue),
      processCalendarItem secret name st bv = st ∨
      ∃ eventId, bv.resourceDataId = some eventId ∧
        processCalendarItem secret name st bv = acceptCalendarEvent name st bv eventId := by
  intro secret name st bv
  unfold processCalendarItem
  split
  · exact Or.inl rfl
  · cases h2 : bv.resourceDataId with
    | none => exact Or.inl rfl
    | some eventId =>
      dsimp only []
      split_ifs <;>
        first
          | exact Or.inl rfl
          | exact Or.inr ⟨eventId, rfl, rfl⟩

/-- Helper: for a surviving item with a truthy id, no same-type entry cached,
the loop body is exactly the cross-type suppression table followed by
acceptance. -/
theorem processCalendarItem_eq_crossTable :
    ∀ (secret : String) (name : Option String) (st : CalendarAccState)
      (bv : BodyValue) (eventId : String),
      bv.clientState = some secret →
      bv.resourceDataId = some eventId →
      eventId ≠ "" →
      getEventCache st.cache (jsName name) bv.changeType eventId = none →
      processCalendarItem secret name st bv =
        if crossSuppressed st.cache (jsName name) bv.changeType eventId then st
        else acceptCalendarEvent name st bv eventId := by
  intro secret name st bv eventId h1 h2 h3 h4
  have h4s : (getEventCache st.cache (jsName name) bv.changeType eventId).isSome = false := by
    rw [h4]; rfl
  simp only [processCalendarItem, crossSuppressed, h2]
  split_ifs <;> simp_all

/-- Claim C1: for a surviving calendar notification with no same-type cache
entry, an incoming updated is suppressed exactly when the cache holds a
created or a deleted entry for the same account and event id, an incoming
created or deleted is suppressed exactly when the cache holds an updated
entry for that id, and otherwise the event is accepted (pushed and cached). -/
theorem C1_calendar_cross_type_suppression :
    ∀ (secret : String) (name : Option String) (st : CalendarAccState)
      (bv : BodyValue) (eventId : String),
      bv.clientState = some secret →
      bv.resourceDataId = some eventId →
      eventId ≠ "" →
      getEventCache st.cache (jsName name) bv.changeType eventId = none →
      (crossSuppressed st.cache (jsName name) bv.changeType eventId = true →
        processCalendarItem secret name st bv = st) ∧
      (crossSuppressed st.cache (jsName name) bv.changeType eventId = false →
        processCalendarItem secret name st bv = acceptCalendarEvent name st bv eventId) := by
  intro secret name st bv eventId h1 h2 h3 h4
  have key := processCalendarItem_eq_crossTable secret name st bv eventId h1 h2 h3 h4
  constructor <;> intro hcr <;> rw [key, hcr] <;> simp

/-- Witness for C1: with a created entry for E1 cached, an updated E1 is
suppressed; with an empty cache, an updated E1 is accepted. -/
theorem C1_calendar_cross_type_suppression_witness :
    processCalendarItem "secret" (some "acct") stCreatedCachedE1 bvUpdatedE1 =
      stCreatedCachedE1 ∧
    processCalendarItem "secret" (some "acct") stEmptyCal bvUpdatedE1 =
      acceptCalendarEvent (some "acct") stEmptyCal bvUpdatedE1 "E1" :=
  ⟨(C1_calendar_cross_type_suppression "secret" (some "acct") stCreatedCachedE1
      bvUpdatedE1 "E1" rfl rfl (by decide) rfl).1 rfl,
   (C1_calendar_cross_type_suppression "secret" (some "acct") stEmptyCal
      bvUpdatedE1 "E1" rfl rfl (by decide) rfl).2 rfl⟩

/-- Claim C2: the calendar-notify loop body is idempotent (the identical
notification processed again right after is suppressed, so two deliveries
within the window yield exactly one accepted event); a same-type cache entry
suppresses the item outright; and every accepted item has written a cache
entry under its own accountName:changeType:eventId key. -/
theorem C2_calendar_self_dedup :
    ∀ (secret : String) (name : Option String) (st : CalendarAccState)
      (bv : BodyValue) (eventId : String),
      processCalendarItem secret name (processCalendarItem secret name st bv) bv =
        processCalendarItem secret name st bv ∧
      (bv.resourceDataId = some eventId →
        (getEventCache st.cache (jsName name) bv.changeType eventId).isSome = true →
        processCalendarItem secret name st bv = st) ∧
      (bv.resourceDataId = some eventId →
        processCalendarItem secret name st bv ≠ st →
        getEventCache (processCalendarItem secret name st bv).cache
            (jsName name) bv.changeType eventId = some (stringifyBodyValue bv)) := by
  intro secret name st bv eventId
  refine ⟨?_, ?_, ?_⟩
  · rcases processCalendarItem_cases secret name st bv with h | ⟨eId, hid, h⟩
    · rw [h]; exact h
    · rw [h]
      exact processCalendarItem_self_cached secret name _ bv eId hid
        (by rw [getEventCache_accept_self]; rfl)
  · intro hid hsome
    exact processCalendarItem_self_cached secret name st bv eventId hid hsome
  · intro hid hne
    rcases processCalendarItem_cases secret name st bv with h | ⟨eId, hid2, h⟩
    · exact absurd h hne
    · have heq : eventId = eId := by
        rw [hid] at hid2
        exact Option.some.inj hid2
      rw [heq, h]
      exact getEventCache_accept_self name st bv eId

/-- Witness for C2: processing created E1 twice equals processing it once; a
cached created E1 suppresses the same notification; and the accepted created
E1 is readable back from the cache under its own key. -/
theorem C2_calendar_self_dedup_witness :
    processCalendarItem "secret" (some "acct")
        (processCalendarItem "secret" (some "acct") stEmptyCal bvCreatedE1) bvCreatedE1 =
      processCalendarItem "secret" (some "acct") stEmptyCal bvCreatedE1 ∧
    processCalendarItem "secret" (some "acct") stCreatedCachedE1 bvCreatedE1 =
      stCreatedCachedE1 ∧
    getEventCache
        (processCalendarItem "secret" (some "acct") stEmptyCal bvCreatedE1).cache
        "acct" "created" "E1" = some (stringifyBodyValue bvCreatedE1) :=
  ⟨(C2_calendar_self_dedup "secret" (some "acct") stEmptyCal bvCreatedE1 "E1").1,
   (C2_calendar_self_dedup "secret" (some "acct") stCreatedCachedE1 bvCreatedE1 "E1").2.1
     rfl rfl,
   (C2_calendar_self_dedup "secret" (some "acct") stEmptyCal bvCreatedE1 "E1").2.2
     rfl (by decide)⟩

/-- Witness for C10: a concrete duplicated email notification. -/
theorem C10_email_path_no_dedup_witness :
    (processEmailItems "secret" { emailIds := [], subscriptionId := none }
        [bvCreatedE1, bvCreatedE1]).emailIds = ["E1", "E1"] :=
  ((C10_email_path_no_dedup "secret" none (some "acct") [] [] []
      { emailIds := [], subscriptionId := none } bvCreatedE1 "E1").2.2
    rfl rfl (by decide)).2

/-- Counterexample to claim C3 as stated: in a world where the replay after
the refresh also answers 401, makeRequest reports no AuthExpired condition at
all - it returns the parsed JSON body of the 401 replay as an ordinary
success value (while indeed issuing exactly two API calls and one refresh). -/
theorem C3_replay_401_no_auth_expired_counterexample :
    (w401.fetch "https://graph.microsoft.com/v1.0/me" "tok2").status = 401 ∧
    (makeRequest w401 st401 "https://graph.microsoft.com/v1.0/me").result =
      Except.ok { value := none, nextLink := none } ∧
    (makeRequest w401 st401 "https://graph.microsoft.com/v1.0/me").apiCalls = 2 ∧
    (makeRequest w401 st401 "https://graph.microsoft.com/v1.0/me").refreshCalls = 1 :=
  ⟨rfl, rfl, rfl, rfl⟩

/-- Claim C3 (corrected): a 401 response triggers exactly one refresh
exchange; on refresh success the original request is replayed exactly once
with the new token and its parsed body is returned whatever its status (no
error is raised on a second 401, and no second refresh or third request
happens); on refresh failure the error propagates with no replay. -/
theorem C3_token_refresh_single_retry :
    ∀ (w : World) (st : TokenState) (url : String),
      (w.fetch url st.accessToken).status = 401 →
      (makeRequest w st url).refreshCalls = 1 ∧
      (makeRequest w st url).apiCalls ≤ 2 ∧
      (∀ e, refreshAccessToken w st = Except.error e →
        makeRequest w st url =
          { result := Except.error e, state := st, apiCalls := 1, refreshCalls := 1 }) ∧
      (∀ st2, refreshAccessToken w st = Except.ok st2 →
        makeRequest w st url =
          { result := Except.ok (w.fetch url st2.accessToken).page, state := st2
            apiCalls := 2, refreshCalls := 1 }) := by
  intro w st url h
  have key : makeRequest w st url =
      match refreshAccessToken w st with
      | Except.error e =>
        { result := Except.error e, state := st, apiCalls := 1, refreshCalls := 1 }
      | Except.ok st2 =>
        { result := Except.ok (w.fetch url st2.accessToken).page, state := st2
          apiCalls := 2, refreshCalls := 1 } := by
    simp only [makeRequest]
    rw [if_pos h]
  refine ⟨?_, ?_, ?_, ?_⟩
  · rw [key]; cases hr : refreshAccessToken w st <;> simp
  · rw [key]; cases hr : refreshAccessToken w st <;> simp
  · intro e he; rw [key, he]
  · intro st2 hs; rw [key, hs]

/-- Witness for C3: the concrete all-401 world issues one refresh and one
replay and returns the replayed body. -/
theorem C3_token_refresh_single_retry_witness :
    makeRequest w401 st401 "https://graph.microsoft.com/v1.0/me" =
      { result := Except.ok { value := none, nextLink := none }
        state := { accessToken := "tok2", refreshToken := "r1", userId := "u1" }
        apiCalls := 2, refreshCalls := 1 } :=
  (C3_token_refresh_single_retry w401 st401 "https://graph.microsoft.com/v1.0/me"
    rfl).2.2.2 { accessToken := "tok2", refreshToken := "r1", userId := "u1" } rfl

/-- Helper: a fetch answering 200 makes makeRequest return its body with one
API call, no refresh, and the token state untouched. -/
theorem makeRequest_status200 :
    ∀ (w : World) (st : TokenState) (url : String),
      (w.fetch url st.accessToken).status = 200 →
      makeRequest w st url =
        { result := Except.ok (w.fetch url st.accessToken).page, state := st
          apiCalls := 1, refreshCalls := 0 } := by
  intro w st url h
  simp only [makeRequest]
  rw [if_neg (by simp [h]), if_neg (by simp [h, jsResponseOk])]

/-- Helper: along a chain of 200 pages the pagination loop accumulates the
pages in order with one API call per page. -/
theorem eventsLoop_chain :
    ∀ (w : World) (st : TokenState) (ps : List GraphPage) (u : String)
      (acc : List String) (calls fuel : Nat),
      PageChain w st.accessToken u ps →
      ps.length ≤ fuel →
      eventsLoop w fuel st (some u) acc calls =
        { result := Except.ok (acc ++ ps.flatMap pageItems), state := st
          apiCalls := calls + ps.length } := by
  intro w st ps
  induction ps with
  | nil =>
    intro u acc calls fuel hch _
    exact absurd hch (by simp [PageChain])
  | cons p rest ih =>
    intro u acc calls fuel hch hlen
    obtain ⟨hs, hp, hrest⟩ := hch
    cases fuel with
    | zero => simp at hlen
    | succ f =>
      simp only [eventsLoop]
      rw [makeRequest_status200 w st u hs]
      dsimp only []
      rw [hp]
      have hacc : (match p.value with
          | some items => acc ++ items
          | none => acc) = acc ++ pageItems p := by
        cases hv : p.value <;> simp [pageItems, hv]
      rw [hacc]
      cases rest with
      | nil =>
        rw [hrest]
        simp [eventsLoop, pageItems]
      | cons q qs =>
        obtain ⟨u2, hnl, hch2⟩ := hrest
        rw [hnl]
        rw [ih u2 (acc ++ pageItems p) (calls + 1) f hch2 (by
          have : (q :: qs).length + 1 ≤ f + 1 := by simpa using hlen
          omega)]
        congr 1
        · rw [List.append_assoc]
          simp
        · simp
          omega

/-- Claim C4: for a chain of n linked pages all answering 200, the executor
issues exactly n API calls, returns the concatenation of the pages in page
order, and stops exactly when the continuation field is absent. -/
theorem C4_pagination_completeness :
    ∀ (w : World) (st : TokenState) (fuel : Nat) (initialUrl : String)
      (ps : List GraphPage),
      PageChain w st.accessToken initialUrl ps →
      ps.length ≤ fuel →
      getUserCalendarEvents w st fuel initialUrl =
        { result := Except.ok (ps.flatMap pageItems), state := st
          apiCalls := ps.length } := by
  intro w st fuel u ps h hl
  have hloop := eventsLoop_chain w st ps u [] 0 fuel h hl
  simpa [getUserCalendarEvents] using hloop

/-- Witness for C4: the concrete three-page chain yields the three pages
concatenated in order with exactly three API calls. -/
theorem C4_pagination_completeness_witness :
    PageChain wPages stPag.accessToken "u1" [page1, page2, page3] ∧
    getUserCalendarEvents wPages stPag 10 "u1" =
      { result := Except.ok ["i1", "i2", "i3"], state := stPag, apiCalls := 3 } := by
  have hch : PageChain wPages stPag.accessToken "u1" [page1, page2, page3] := by
    exact ⟨rfl, rfl, "u2", rfl, rfl, rfl, "u3", rfl, rfl, rfl, rfl⟩
  refine ⟨hch, ?_⟩
  have hres := C4_pagination_completeness wPages stPag 10 "u1" [page1, page2, page3]
    hch (by decide)
  exact hres.trans rfl

/-- Counterexample to claim C8 as stated: with the KV store unavailable for
reads, a valid calendar notification makes the endpoint answer the onError
500 server_error reply instead of fail-open acceptance and 202. -/
theorem C8_cache_read_failure_counterexample :
    serveCalendarNotify "secret" none (some "acct") [bvCreatedE1] kvAllReadsFail =
      RouteReply.errorJson 500 serverErrorBody := rfl

/-- Claim C8 (corrected): the calendar-notify handler has no try/catch
around its cache operations, so a failing cache read on a surviving item
propagates out of the handler and the router answers 500 server_error to the
provider (no fail-open). -/
theorem C8_cache_error_propagates :
    ∀ (secret : String) (name : Option String) (bv : BodyValue)
      (rest : List BodyValue) (kv : KvBehavior) (eventId : String),
      bv.clientState = some secret →
      bv.resourceDataId = some eventId →
      eventId ≠ "" →
      kv.getFails (eventCacheKey (jsName name) bv.changeType eventId) = true →
      serveCalendarNotify secret none name (bv :: rest) kv =
        RouteReply.errorJson 500 serverErrorBody := by
  intro secret name bv rest kv eventId h1 h2 h3 h4
  have hget : getEventCacheE kv (jsName name) bv.changeType eventId = Except.error () := by
    simp [getEventCacheE, kvGet, h4]
  have hitem : processCalendarItemE secret name
      { kv := kv, events := [], subscriptionId := none } bv = Except.error () := by
    unfold processCalendarItemE
    rw [if_neg (by simp [h1]), h2]
    dsimp only []
    rw [if_neg h3]
    rw [hget]
    rfl
  have hfold : List.foldlM (processCalendarItemE secret name)
      { kv := kv, events := [], subscriptionId := none } (bv :: rest) =
      Except.error () := by
    rw [List.foldlM_cons, hitem]
    rfl
  have hcal : calendarNotifyE secret none name (bv :: rest) kv = Except.error () := by
    unfold calendarNotifyE
    rw [if_neg (by simp [jsTruthy])]
    rw [hfold]
    rfl
  simp [serveCalendarNotify, hcal]

/-- Witness for C8: the failing store at the concrete notification. -/
theorem C8_cache_error_propagates_witness :
    serveCalendarNotify "secret" none (some "addr") [bvCreatedE1] kvAllReadsFail =
      RouteReply.errorJson 500 serverErrorBody :=
  C8_cache_error_propagates "secret" (some "addr") bvCreatedE1 [] kvAllReadsFail "E1"
    rfl rfl (by decide) rfl

end OutlookMCP
